import Mathlib

/-!
Shallow embedding of the Zynk backend session pipeline:
`backend/main.py` (websocket session handler), `backend/video_recorder.py`
(VideoRecorder), and `backend/feedback_agent/feedback_agent.py`
(FeedbackAgent).

Modelling conventions:
* Python strings that the control flow inspects character by character
  (AI judgments) are modelled as `List Char`; incidental strings (paths,
  session ids) as `String`.
* Python wall-clock floats are modelled as rationals.
* Every `try/except` boundary becomes a total Lean function; external
  effects (ffmpeg subprocesses, the Gemini client, Supabase, image
  decoding) are explicit environment/oracle parameters, so a Lean
  function models exactly the branching the Python source performs on
  the outcomes of those effects.
-/

/-- Whitespace characters removed by the Python method str.strip with no
argument (ASCII subset; the session pipeline only ever produces ASCII
judgments). -/
def isPySpace (c : Char) : Bool :=
  c == ' ' || c == '\t' || c == '\n' || c == '\r' || c == '\x0b' || c == '\x0c'

/-- Python str.strip: drop leading and trailing whitespace. -/
def pyStrip (s : List Char) : List Char :=
  ((s.dropWhile isPySpace).reverse.dropWhile isPySpace).reverse

/-- Python str.lower (ASCII). -/
def pyLower (s : List Char) : List Char := s.map Char.toLower

/-- Python str.upper (ASCII). -/
def pyUpper (s : List Char) : List Char := s.map Char.toUpper

/-- Python s.startswith(p). -/
def pyStartswith : List Char → List Char → Bool
  | [], _ => true
  | _ :: _, [] => false
  | p :: ps, c :: cs => p == c && pyStartswith ps cs

/-- The data-URL stripping idiom used by add_frame, add_audio_chunk,
set_final_webm_blob (video_recorder.py lines 55-57) and analyze_segment
(feedback_agent.py lines 89-90): when the marker occurs, Python keeps
element 1 of the split, i.e. the text between the first marker and the
next occurrence (or the end). -/
def stripDataUrl (s : String) : String :=
  match s.splitOn ("base64,") with
  | [] => s
  | [_] => s
  | _ :: p :: _ => p

/-- feedback_agent.py line 81: fixed string returned by analyze_segment
whenever the Gemini client is not configured. -/
def placeholderFeedback : List Char :=
  ("AI feedback unavailable (API not configured)").data

/-- feedback_agent.py line 117: returned when no frame in the batch
decodes to a valid image. -/
def noValidFramesMsg : List Char :=
  ("Error: No valid image frames received for analysis").data

/-- feedback_agent.py line 189: text prepended to the exception message
by the outermost handler of analyze_segment. -/
def analyzeErrorMarker : List Char :=
  ("Error analyzing segment: ").data

/-- FeedbackAgent.analyze_segment (feedback_agent.py lines 65-191).
Oracles:
* `configured` — whether self.client is set (lines 56-63, 80);
* `decodeFrame` — the per-frame base64-decode / Image.open / verify
  pipeline of the loop at lines 86-114, including the under-100-byte
  skip; `none` models any skipped frame (each per-frame exception is
  caught inside the loop and the loop continues);
* `gemini` — the generate_content call (lines 176-180): `Except.ok`
  carries the response text (which the source strips), `Except.error`
  carries the stringified exception caught by the outer handler at
  lines 188-191.
The audio branch (lines 124-142) only shapes the prompt and catches its
own exceptions, so it does not affect the returned judgment and is not a
parameter. The function is total: every exception path of the source is
one of its return values, so no exception escapes the boundary. -/
def analyze_segment (configured : Bool) (decodeFrame : String → Option Nat)
    (gemini : Except (List Char) (List Char)) (frames : List String) : List Char :=
  if !configured then placeholderFeedback
  else
    let images := frames.filterMap (fun f => decodeFrame (stripDataUrl f))
    if images.isEmpty then noValidFramesMsg
    else
      match gemini with
      | Except.ok text => pyStrip text
      | Except.error e => analyzeErrorMarker ++ e

/-- A persisted feedback segment (main.py lines 296-301). The created_at
wall-clock string is omitted: it is an opaque timestamp no claim reads. -/
structure Segment where
  feedback_text : List Char
  start_seconds : Rat
  end_seconds : Rat
deriving DecidableEq

/-- main.py line 172. -/
def FEEDBACK_INTERVAL : Rat := 5

/-- main.py line 266: the feedback trigger condition
current_time - last_feedback_time >= FEEDBACK_INTERVAL, a pure
comparison of the two clock readings against the interval. -/
def should_trigger (now lastFeedback interval : Rat) : Bool :=
  decide (now - lastFeedback ≥ interval)

/-- main.py lines 275-277: the segment bounds computed when feedback
fires: start = max(0, last_feedback_time - session_start_time) and
end = max(start, current_time - session_start_time). -/
def segment_bounds (sessionStart lastFeedback now : Rat) : Rat × Rat :=
  let currentOffset := now - sessionStart
  let segmentStart := max 0 (lastFeedback - sessionStart)
  (segmentStart, max segmentStart currentOffset)

/-- Python round(x, 2) used at main.py lines 290, 298, 299: rounding to
the nearest hundredth (the float half-to-even tie rule is immaterial:
no claim inspects a rounded value). -/
def round2 (x : Rat) : Rat := (Rat.floor (100 * x + 1/2) : Rat) / 100

/-- main.py lines 281-285: the actionability classification of the
stripped judgment text: non-empty, not case-insensitively the "OK"
sentinel, and not beginning case-insensitively with "error". -/
def is_actionable (feedbackText : List Char) : Bool :=
  !feedbackText.isEmpty
    && !(pyUpper feedbackText == ("OK").data)
    && !(pyStartswith ("error").data (pyLower feedbackText))

/-- The outbound ai_feedback notification (main.py lines 287-310). -/
structure AiFeedbackPayload where
  message : List Char
  timestamp : Rat
  is_actionable : Bool
  start_seconds : Option Rat
  end_seconds : Option Rat
  segment_index : Option Nat

/-- main.py lines 270-313: given the judgment string returned by the
inference call and the three clock readings, compute the ai_feedback
payload sent to the client and the feedback_segments log after the
handler. The payload always carries the raw judgment and its
classification; only an actionable judgment appends a segment (storing
the stripped text and the rounded bounds) and extends the payload with
the bounds and the index of the new entry. -/
def feedback_step (aiFeedback : List Char) (sessionStart lastFeedback now : Rat)
    (log : List Segment) : AiFeedbackPayload × List Segment :=
  let bounds := segment_bounds sessionStart lastFeedback now
  let feedbackText := pyStrip aiFeedback
  let actionable := is_actionable feedbackText
  if actionable then
    let entry : Segment :=
      { feedback_text := feedbackText,
        start_seconds := round2 bounds.1,
        end_seconds := round2 bounds.2 }
    let newLog := log ++ [entry]
    ({ message := aiFeedback, timestamp := round2 bounds.2, is_actionable := actionable,
       start_seconds := some (round2 bounds.1), end_seconds := some (round2 bounds.2),
       segment_index := some (newLog.length - 1) }, newLog)
  else
    ({ message := aiFeedback, timestamp := round2 bounds.2, is_actionable := actionable,
       start_seconds := none, end_seconds := none, segment_index := none }, log)

/-- Outbound websocket notifications relevant to the stop handler. -/
inductive OutMsg where
  | status (text : String)
  | upload_complete (url : String)
  | upload_error (text : String)
  | feedback_saved (segmentsSaved : Nat)
  | feedback_save_error (text : String)
deriving DecidableEq

/-- Result value of the segment-persistence collaborator. -/
inductive PersistResult where
  | success (count : Nat)
  | failure (error : String)
deriving DecidableEq

/-- Outcome environment for one persistence call: the collaborator
succeeds, returns a failure dictionary, or raises. -/
inductive PersistEnv where
  | succeeds
  | fails (err : String)
  | raises (err : String)
deriving DecidableEq

/-- Modelled from the spec: save_feedback_segments_to_supabase is
imported and called by main.py (lines 10-15 and 410-414) but its
definition is not under src/. Per spec section 6 the segment-persistence
collaborator returns a success record carrying a count, or a failure
record carrying an error; per sections 4.4 and 8 the count reported on
success equals the number of entries in the batch handed to it. A raised
exception (caught by the caller at main.py lines 440-449) is modelled as
Except.error. -/
def save_feedback_segments_to_supabase (env : PersistEnv) (segments : List Segment) :
    Except String PersistResult :=
  match env with
  | PersistEnv.succeeds => Except.ok (PersistResult.success segments.length)
  | PersistEnv.fails e => Except.ok (PersistResult.failure e)
  | PersistEnv.raises e => Except.error e

/-- main.py lines 408-451: the feedback flush performed by the stop
handler. Returns (the batch handed to the persistence collaborator, the
notifications sent, the log after the handler). The source clears
feedback_segments unconditionally after the try/except (line 451), so
the resulting log is empty in every outcome and nothing is re-queued. -/
def flush_step (env : PersistEnv) (log : List Segment) :
    List Segment × List OutMsg × List Segment :=
  let msgs :=
    match save_feedback_segments_to_supabase env log with
    | Except.ok (PersistResult.success n) => [OutMsg.feedback_saved n]
    | Except.ok (PersistResult.failure e) => [OutMsg.feedback_save_error e]
    | Except.error e => [OutMsg.feedback_save_error e]
  (log, msgs, [])

/-- main.py lines 367-400: the artifact portion of the stop handler.
Given the value returned by save_video and the upload collaborator
outcome, returns whether upload_to_supabase was invoked and the
notifications sent: a path leads to an upload attempt and an
upload_complete or upload_error message; None leads straight to an
upload_error message with no upload attempt. -/
def stop_upload_step (savedPath : Option String) (uploadOutcome : Option String) :
    Bool × List OutMsg :=
  match savedPath with
  | some _ =>
    match uploadOutcome with
    | some url => (true, [OutMsg.upload_complete url])
    | none => (true, [OutMsg.upload_error ("Failed to upload video to Supabase")])
  | none => (false, [OutMsg.upload_error ("Failed to save video")])

/-- The per-session VideoRecorder state (video_recorder.py lines 31-50).
Decoded bitmaps and decoded audio byte-chunks are opaque to every claim
(only their counts matter), so both are modelled as naturals. -/
structure VideoRecorder where
  session_id : String
  user_id : String
  fps : Nat
  frames : List Nat
  audio_chunks : List Nat
  has_combined_blob : Bool
deriving DecidableEq

/-- video_recorder.py line 39. -/
def user_session_dir (r : VideoRecorder) : String :=
  ("temp_videos/") ++ r.user_id ++ ("/") ++ r.session_id

/-- video_recorder.py line 42. -/
def temp_video_path (r : VideoRecorder) : String :=
  user_session_dir r ++ ("/video.mp4")

/-- video_recorder.py line 43. -/
def temp_audio_path (r : VideoRecorder) : String :=
  user_session_dir r ++ ("/audio.webm")

/-- video_recorder.py line 45. -/
def final_video_path (r : VideoRecorder) : String :=
  user_session_dir r ++ ("/final.mp4")

/-- VideoRecorder.add_frame (video_recorder.py lines 52-68). The
base64-decode / Image.open / cv2.cvtColor pipeline applied to the
payload after data-URL stripping is the oracle `decodeImage`: some bmp
models a successful decode, none models any exception, which the source
catches and logs (lines 67-68). Total: no exception escapes. -/
def add_frame (decodeImage : String → Option Nat) (r : VideoRecorder)
    (base64Frame : String) : VideoRecorder :=
  match decodeImage (stripDataUrl base64Frame) with
  | some bmp => { r with frames := r.frames ++ [bmp] }
  | none => r

/-- Outcome of one subprocess.run ffmpeg invocation: zero exit, non-zero
exit (CalledProcessError, since check=True), or FileNotFoundError when
the executable is missing. -/
inductive RunResult where
  | ok
  | calledProcessError
  | fileNotFound
deriving DecidableEq

/-- Observable side-effecting actions attempted by save_video, in
order: the primary blob conversion (video_recorder.py lines 103-143),
the simplified fallback conversion (lines 150-176), the cv2.VideoWriter
frame-container write (lines 200-215), the sidecar audio-file write
(lines 221-223), and the audio+video mux (lines 228-236). -/
inductive Act where
  | runPrimaryFfmpeg
  | runFallbackFfmpeg
  | writeFrameContainer
  | writeAudioFile
  | runMuxFfmpeg
deriving DecidableEq

/-- Environment for one save_video call: whether the ffmpeg executable
is missing (in which case every invocation raises FileNotFoundError),
whether each particular invocation would exit zero, and whether the
cv2.VideoWriter frame write (whose failure the source catches with the
outer handler at lines 251-253) succeeds. -/
structure ToolEnv where
  toolMissing : Bool
  primaryOk : Bool
  fallbackOk : Bool
  muxOk : Bool
  frameWriteOk : Bool
deriving DecidableEq

/-- One ffmpeg invocation under the environment. -/
def runFfmpeg (env : ToolEnv) (succeeds : Bool) : RunResult :=
  if env.toolMissing then RunResult.fileNotFound
  else if succeeds then RunResult.ok
  else RunResult.calledProcessError

/-- VideoRecorder.save_video (video_recorder.py lines 99-253), returning
the value returned to the caller (None is modelled as none) together
with the trace of attempted actions.
* Blob branch (lines 101-192): primary conversion; ok returns
  final_video_path (line 145); CalledProcessError retries once with the
  simplified command — ok returns final_video_path (line 180), failure
  returns None (line 185); FileNotFoundError returns None immediately
  (lines 186-189) without touching the frame path. (A FileNotFoundError
  from the fallback cannot arise here: under this environment ffmpeg
  raises it only when the executable is missing, in which case the
  primary already raised it.)
* Frame branch (lines 194-253): no frames returns None (lines 194-196);
  a failure of the container write is caught by the outer handler and
  returns None (lines 251-253); no audio chunks returns temp_video_path
  (lines 247-249); otherwise the audio file is written and the mux runs
  — ok returns final_video_path (line 238), CalledProcessError or
  FileNotFoundError return temp_video_path (lines 239-246). -/
def save_video (env : ToolEnv) (r : VideoRecorder) : Option String × List Act :=
  if r.has_combined_blob then
    match runFfmpeg env env.primaryOk with
    | RunResult.ok => (some (final_video_path r), [Act.runPrimaryFfmpeg])
    | RunResult.calledProcessError =>
      match runFfmpeg env env.fallbackOk with
      | RunResult.ok =>
        (some (final_video_path r), [Act.runPrimaryFfmpeg, Act.runFallbackFfmpeg])
      | _ => (none, [Act.runPrimaryFfmpeg, Act.runFallbackFfmpeg])
    | RunResult.fileNotFound => (none, [Act.runPrimaryFfmpeg])
  else if r.frames.isEmpty then (none, [])
  else if !env.frameWriteOk then (none, [Act.writeFrameContainer])
  else if r.audio_chunks.isEmpty then
    (some (temp_video_path r), [Act.writeFrameContainer])
  else
    match runFfmpeg env env.muxOk with
    | RunResult.ok =>
      (some (final_video_path r),
        [Act.writeFrameContainer, Act.writeAudioFile, Act.runMuxFfmpeg])
    | _ =>
      (some (temp_video_path r),
        [Act.writeFrameContainer, Act.writeAudioFile, Act.runMuxFfmpeg])

/-! ### Helper lemmas about the Python string model -/

theorem pyStartswith_self_append (p x : List Char) :
    pyStartswith p (p ++ x) = true := by
  induction p with
  | nil => rfl
  | cons c cs ih => simp [pyStartswith, ih]

theorem pyStartswith_append_right (p l₁ l₂ : List Char)
    (h : pyStartswith p l₁ = true) : pyStartswith p (l₁ ++ l₂) = true := by
  induction p generalizing l₁ with
  | nil => rfl
  | cons c cs ih =>
    cases l₁ with
    | nil => exact absurd h (by simp [pyStartswith])
    | cons d ds =>
      simp only [pyStartswith, Bool.and_eq_true] at h
      simp [pyStartswith, h.1, ih ds h.2]

/-- Stripping the result of the outermost exception handler of
analyze_segment always leaves a string that starts with "Error": the
leading marker is whitespace-free except for its trailing space, so the
strip can only consume trailing whitespace of the exception text and at
most that one space. -/
theorem pyStrip_analyzeError (e : List Char) :
    ∃ t, pyStrip (analyzeErrorMarker ++ e) = ("Error").data ++ t := by
  unfold pyStrip
  rw [List.dropWhile_append, if_neg (by decide),
    show List.dropWhile isPySpace analyzeErrorMarker = analyzeErrorMarker from by decide,
    List.reverse_append, List.dropWhile_append]
  by_cases hc : (List.dropWhile isPySpace e.reverse).isEmpty = true
  · rw [if_pos hc]
    exact ⟨(" analyzing segment:").data, by decide⟩
  · rw [if_neg hc, List.reverse_append, List.reverse_reverse,
      show analyzeErrorMarker = ("Error").data ++ (" analyzing segment: ").data from by decide,
      List.append_assoc]
    exact ⟨(" analyzing segment: ").data ++ (List.dropWhile isPySpace e.reverse).reverse, rfl⟩

theorem is_actionable_false_of_error (s t : List Char)
    (h : s = ("Error").data ++ t) : is_actionable s = false := by
  subst h
  unfold is_actionable pyLower
  rw [List.map_append,
    show List.map Char.toLower (("Error").data) = ("error").data from by decide,
    pyStartswith_self_append]
  simp

theorem is_actionable_eq_true_iff (t : List Char) :
    is_actionable t = true ↔
      (t ≠ [] ∧ pyUpper t ≠ ("OK").data ∧
        pyStartswith ("error").data (pyLower t) = false) := by
  unfold is_actionable
  simp [List.isEmpty_iff, and_assoc]

theorem feedback_step_log_of_not_actionable (ai : List Char)
    (ss lf now : Rat) (log : List Segment)
    (h : is_actionable (pyStrip ai) = false) :
    (feedback_step ai ss lf now log).2 = log := by
  simp [feedback_step, h]

theorem feedback_step_log_of_actionable (ai : List Char)
    (ss lf now : Rat) (log : List Segment)
    (h : is_actionable (pyStrip ai) = true) :
    (feedback_step ai ss lf now log).2 = log ++
      [{ feedback_text := pyStrip ai,
         start_seconds := round2 (segment_bounds ss lf now).1,
         end_seconds := round2 (segment_bounds ss lf now).2 }] := by
  simp [feedback_step, h]

/-! ### Claim theorems -/

/-- Claim C1 (code divergence evidence): with the inference backend
unconfigured, analyze_segment does return the fixed placeholder string
and the ai_feedback payload does carry it, but the handler classifies
the placeholder as ACTIONABLE — it is neither the "OK" sentinel nor
"error"-marked — and therefore appends it to the feedback_segments log,
contradicting the claim that it is surfaced as non-actionable and never
appended. -/
theorem c1_placeholder_is_logged :
    analyze_segment false (fun _ => none) (Except.ok []) [] = placeholderFeedback ∧
    (feedback_step placeholderFeedback 0 0 5 []).1.message = placeholderFeedback ∧
    (feedback_step placeholderFeedback 0 0 5 []).1.is_actionable = true ∧
    (feedback_step placeholderFeedback 0 0 5 []).2.length = 1 := by
  refine ⟨rfl, ?_, ?_, ?_⟩
  · have h : is_actionable (pyStrip placeholderFeedback) = true := by decide
    simp [feedback_step, h]
  · have h : is_actionable (pyStrip placeholderFeedback) = true := by decide
    simp [feedback_step, h]
  · have h : is_actionable (pyStrip placeholderFeedback) = true := by decide
    simp [feedback_step, h]

/-- Claim C2: on a store holding a consolidated blob, save_video first
invokes ffmpeg with the full parameter set; a CalledProcessError is
retried exactly once with the simplified parameter set; two failures
yield None with no artifact; and a missing executable yields None after
the primary invocation alone — the buffered-frames path (container
write, audio write, mux) is never attempted, whatever frames the store
holds. -/
theorem c2_blob_fallback_chain (env : ToolEnv) (r : VideoRecorder)
    (hblob : r.has_combined_blob = true) :
    (env.toolMissing = false → env.primaryOk = true →
      save_video env r = (some (final_video_path r), [Act.runPrimaryFfmpeg])) ∧
    (env.toolMissing = false → env.primaryOk = false → env.fallbackOk = true →
      save_video env r =
        (some (final_video_path r), [Act.runPrimaryFfmpeg, Act.runFallbackFfmpeg])) ∧
    (env.toolMissing = false → env.primaryOk = false → env.fallbackOk = false →
      save_video env r = (none, [Act.runPrimaryFfmpeg, Act.runFallbackFfmpeg])) ∧
    (env.toolMissing = true →
      save_video env r = (none, [Act.runPrimaryFfmpeg])) := by
  refine ⟨?_, ?_, ?_, ?_⟩
  · intro hm hp
    simp [save_video, runFfmpeg, hblob, hm, hp]
  · intro hm hp hf
    simp [save_video, runFfmpeg, hblob, hm, hp, hf]
  · intro hm hp hf
    simp [save_video, runFfmpeg, hblob, hm, hp, hf]
  · intro hm
    simp [save_video, runFfmpeg, hblob, hm]

/-- Witness for C2: with the executable missing and buffered frames
present alongside the blob, save_video returns None having attempted
only the primary invocation. -/
theorem c2_blob_fallback_chain_witness :
    save_video ⟨true, true, true, true, true⟩
        ⟨("s"), ("u"), 30, [0], [], true⟩ = (none, [Act.runPrimaryFfmpeg]) :=
  (c2_blob_fallback_chain ⟨true, true, true, true, true⟩
    ⟨("s"), ("u"), 30, [0], [], true⟩ rfl).2.2.2 rfl

/-- Claim C3 counterexample: the judgment consisting of a single space
is a non-empty string, is not case-insensitively equal to "OK", and does
not begin with the error marker, yet handing it to the handler leaves
the log unchanged — the source classifies the whitespace-STRIPPED text,
so the claim as stated (quantified over the raw judgment) fails. -/
theorem c3_counterexample :
    (" ").data ≠ [] ∧
    pyUpper ((" ").data) ≠ ("OK").data ∧
    pyStartswith ("error").data (pyLower ((" ").data)) = false ∧
    (feedback_step ((" ").data) 0 0 5 []).2 = [] := by
  refine ⟨by decide, by decide, by decide, ?_⟩
  exact feedback_step_log_of_not_actionable _ 0 0 5 [] (by decide)

/-- Claim C3 as amended: the emptiness, "OK"-sentinel and error-marker
conditions are evaluated on the whitespace-stripped judgment; under that
reading the log is unchanged exactly on non-actionable judgments, grows
by exactly one segment on actionable ones, and in both cases the
outbound payload carries the raw judgment and its classification. -/
theorem c3_append_classification (ai : List Char) (ss lf now : Rat)
    (log : List Segment) :
    ((feedback_step ai ss lf now log).1.message = ai ∧
      (feedback_step ai ss lf now log).1.is_actionable =
        is_actionable (pyStrip ai)) ∧
    ((pyStrip ai = [] ∨ pyUpper (pyStrip ai) = ("OK").data ∨
        pyStartswith ("error").data (pyLower (pyStrip ai)) = true) →
      (feedback_step ai ss lf now log).2 = log) ∧
    (pyStrip ai ≠ [] → pyUpper (pyStrip ai) ≠ ("OK").data →
      pyStartswith ("error").data (pyLower (pyStrip ai)) = false →
      (feedback_step ai ss lf now log).2.length = log.length + 1) := by
  refine ⟨⟨?_, ?_⟩, ?_, ?_⟩
  · cases h : is_actionable (pyStrip ai) <;> simp [feedback_step, h]
  · cases h : is_actionable (pyStrip ai) <;> simp [feedback_step, h]
  · intro h
    refine feedback_step_log_of_not_actionable ai ss lf now log ?_
    rw [Bool.eq_false_iff]
    intro hact
    rcases (is_actionable_eq_true_iff (pyStrip ai)).mp hact with ⟨h1, h2, h3⟩
    rcases h with h | h | h
    · exact h1 h
    · exact h2 h
    · rw [h3] at h
      exact Bool.false_ne_true h
  · intro h1 h2 h3
    have hact : is_actionable (pyStrip ai) = true :=
      (is_actionable_eq_true_iff (pyStrip ai)).mpr ⟨h1, h2, h3⟩
    rw [feedback_step_log_of_actionable ai ss lf now log hact]
    simp

/-- Witness for C3 (amended): a concrete actionable judgment grows the
empty log to length one. -/
theorem c3_append_classification_witness :
    (feedback_step (("Speak louder").data) 0 0 5 ([] : List Segment)).2.length =
      ([] : List Segment).length + 1 :=
  (c3_append_classification (("Speak louder").data) 0 0 5 []).2.2
    (by decide) (by decide) (by decide)

/-- Claim C4: the feedback trigger predicate is true iff
now - last_feedback >= interval, with the boundary case triggering
exactly; the definition reads nothing but the two clock values and the
interval, so it is independent of how many frames have arrived. -/
theorem c4_should_trigger_iff (now lastFeedback interval : Rat) :
    (should_trigger now lastFeedback interval = true ↔
      now - lastFeedback ≥ interval) ∧
    (now - lastFeedback = interval →
      should_trigger now lastFeedback interval = true) := by
  constructor
  · simp [should_trigger]
  · intro h
    simp [should_trigger, h]

/-- Witness for C4 at the exact boundary: at now = 10, last trigger = 5
and the configured 5-second interval, the predicate fires. -/
theorem c4_should_trigger_iff_witness :
    should_trigger 10 5 FEEDBACK_INTERVAL = true :=
  (c4_should_trigger_iff 10 5 FEEDBACK_INTERVAL).2 (by norm_num [FEEDBACK_INTERVAL])

/-- Claim C5: for every triple of clock readings — including anomalies
with now before the last trigger or the last trigger before session
start — the computed bounds are start = max(0, last - session_start)
and end = max(start, now - session_start), whence 0 <= start and
start <= end. -/
theorem c5_segment_bounds_safe (ss lf now : Rat) :
    (segment_bounds ss lf now).1 = max 0 (lf - ss) ∧
    (segment_bounds ss lf now).2 = max (max 0 (lf - ss)) (now - ss) ∧
    0 ≤ (segment_bounds ss lf now).1 ∧
    (segment_bounds ss lf now).1 ≤ (segment_bounds ss lf now).2 :=
  ⟨rfl, rfl, le_max_left 0 _, le_max_left _ _⟩

/-- Claim C6: on a store with no consolidated blob, at least one
buffered frame, and a successful container write, save_video always
returns an artifact path: the video-only path when there are no audio
chunks; the muxed path when audio is present and the mux succeeds; and
the video-only path again when the mux fails or the tool is missing —
audio trouble never turns the result into None. -/
theorem c6_frames_path_never_fails_on_audio (env : ToolEnv) (r : VideoRecorder)
    (hblob : r.has_combined_blob = false) (hframes : r.frames ≠ [])
    (hwrite : env.frameWriteOk = true) :
    ((save_video env r).1.isSome = true) ∧
    (r.audio_chunks = [] →
      save_video env r = (some (temp_video_path r), [Act.writeFrameContainer])) ∧
    (r.audio_chunks ≠ [] → env.toolMissing = false → env.muxOk = true →
      (save_video env r).1 = some (final_video_path r)) ∧
    (r.audio_chunks ≠ [] → (env.toolMissing = true ∨ env.muxOk = false) →
      (save_video env r).1 = some (temp_video_path r)) := by
  have hfe : r.frames.isEmpty = false := by
    simp [List.isEmpty_iff, hframes]
  refine ⟨?_, ?_, ?_, ?_⟩
  · by_cases ha : r.audio_chunks = []
    · simp [save_video, hblob, hfe, hwrite, ha]
    · have hae : r.audio_chunks.isEmpty = false := by
        simp [List.isEmpty_iff, ha]
      cases hr : runFfmpeg env env.muxOk with
      | ok => simp [save_video, hblob, hfe, hwrite, hae, hr]
      | calledProcessError => simp [save_video, hblob, hfe, hwrite, hae, hr]
      | fileNotFound => simp [save_video, hblob, hfe, hwrite, hae, hr]
  · intro ha
    simp [save_video, hblob, hfe, hwrite, ha]
  · intro ha hm hmux
    have hae : r.audio_chunks.isEmpty = false := by
      simp [List.isEmpty_iff, ha]
    simp [save_video, runFfmpeg, hblob, hfe, hwrite, hae, hm, hmux]
  · intro ha hbad
    have hae : r.audio_chunks.isEmpty = false := by
      simp [List.isEmpty_iff, ha]
    rcases hbad with hm | hmux
    · simp [save_video, runFfmpeg, hblob, hfe, hwrite, hae, hm]
    · cases hm : env.toolMissing with
      | true => simp [save_video, runFfmpeg, hblob, hfe, hwrite, hae, hm]
      | false => simp [save_video, runFfmpeg, hblob, hfe, hwrite, hae, hm, hmux]

/-- Witness for C6: frames with audio and a failing mux still yield the
video-only artifact path. -/
theorem c6_frames_path_never_fails_on_audio_witness :
    (save_video ⟨false, true, true, false, true⟩
        ⟨("s"), ("u"), 30, [0], [1], false⟩).1 =
      some (temp_video_path ⟨("s"), ("u"), 30, [0], [1], false⟩) :=
  (c6_frames_path_never_fails_on_audio ⟨false, true, true, false, true⟩
      ⟨("s"), ("u"), 30, [0], [1], false⟩ rfl (by decide) rfl).2.2.2
    (by decide) (Or.inr rfl)

/-- Claim C7: on a store with neither a consolidated blob nor buffered
frames, save_video returns None without attempting any action and
without raising (the embedding is total), and the stop handler then
never invokes the upload collaborator, sending only the upload_error
acknowledgment. -/
theorem c7_empty_store_skips_upload (env : ToolEnv) (r : VideoRecorder)
    (uploadOutcome : Option String)
    (hblob : r.has_combined_blob = false) (hframes : r.frames = []) :
    save_video env r = (none, []) ∧
    (stop_upload_step (save_video env r).1 uploadOutcome).1 = false ∧
    (stop_upload_step (save_video env r).1 uploadOutcome).2 =
      [OutMsg.upload_error ("Failed to save video")] := by
  have hsave : save_video env r = (none, []) := by
    simp [save_video, hblob, hframes]
  refine ⟨hsave, ?_, ?_⟩
  · rw [hsave]
    rfl
  · rw [hsave]
    rfl

/-- Witness for C7 on a concrete empty store. -/
theorem c7_empty_store_skips_upload_witness :
    save_video ⟨false, true, true, true, true⟩
        ⟨("s"), ("u"), 30, [], [], false⟩ = (none, []) ∧
    (stop_upload_step (save_video ⟨false, true, true, true, true⟩
        ⟨("s"), ("u"), 30, [], [], false⟩).1 none).1 = false :=
  ⟨(c7_empty_store_skips_upload ⟨false, true, true, true, true⟩
      ⟨("s"), ("u"), 30, [], [], false⟩ none rfl rfl).1,
    (c7_empty_store_skips_upload ⟨false, true, true, true, true⟩
      ⟨("s"), ("u"), 30, [], [], false⟩ none rfl rfl).2.1⟩

/-- Claim C8: the flush hands the accumulated log to the persistence
collaborator as one batch, leaves the log empty in every outcome
(success, failure dictionary, raised exception) so nothing is ever
re-queued, and on success the reported count equals the number of
entries present immediately before the flush. -/
theorem c8_flush_clears_log (env : PersistEnv) (log : List Segment) :
    (flush_step env log).1 = log ∧
    (flush_step env log).2.2 = [] ∧
    (env = PersistEnv.succeeds →
      (flush_step env log).2.1 = [OutMsg.feedback_saved log.length]) ∧
    (∀ e, env = PersistEnv.fails e →
      (flush_step env log).2.1 = [OutMsg.feedback_save_error e]) ∧
    (∀ e, env = PersistEnv.raises e →
      (flush_step env log).2.1 = [OutMsg.feedback_save_error e]) := by
  refine ⟨rfl, rfl, ?_, ?_, ?_⟩
  · intro h
    subst h
    rfl
  · intro e h
    subst h
    rfl
  · intro e h
    subst h
    rfl

/-- Witness for C8: a successful flush of a one-entry log reports count
one and empties the log. -/
theorem c8_flush_clears_log_witness :
    (flush_step PersistEnv.succeeds [⟨("x").data, 0, 1⟩]).2.1 =
      [OutMsg.feedback_saved 1] ∧
    (flush_step PersistEnv.succeeds [⟨("x").data, 0, 1⟩]).2.2 = [] :=
  ⟨(c8_flush_clears_log PersistEnv.succeeds [⟨("x").data, 0, 1⟩]).2.2.1 rfl,
    (c8_flush_clears_log PersistEnv.succeeds [⟨("x").data, 0, 1⟩]).2.1⟩

/-- Claim C9: whenever the decode pipeline accepts the (possibly
data-URL-prefixed) payload, add_frame appends exactly one frame; on any
malformed payload the recorder is unchanged; add_frame is a total
function, so no exception escapes. -/
theorem c9_add_frame_count (decodeImage : String → Option Nat)
    (r : VideoRecorder) (s : String) :
    ((∃ bmp, decodeImage (stripDataUrl s) = some bmp) →
      (add_frame decodeImage r s).frames.length = r.frames.length + 1) ∧
    (decodeImage (stripDataUrl s) = none → add_frame decodeImage r s = r) := by
  constructor
  · rintro ⟨bmp, h⟩
    simp [add_frame, h]
  · intro h
    simp [add_frame, h]

/-- Witness for C9: a decoder that accepts the payload grows a fresh
recorder to one frame. -/
theorem c9_add_frame_count_witness :
    (add_frame (fun _ => some 7) ⟨("s"), ("u"), 30, [], [], false⟩
      ("data:image/png;base64,AAAA")).frames.length = 1 :=
  (c9_add_frame_count (fun _ => some 7) ⟨("s"), ("u"), 30, [], [], false⟩
    ("data:image/png;base64,AAAA")).1 ⟨7, rfl⟩

/-- Claim C10: with the client configured, every failure-path result of
analyze_segment — no frame decoding to a valid image, or any internal
exception reaching the outermost handler — is a string beginning with
"Error"; the handler therefore classifies it as non-actionable and the
log is unchanged. (Totality at the boundary holds by construction:
analyze_segment is a total function whose values model every exception
path of the source.) -/
theorem c10_failure_results_error_marked (decodeFrame : String → Option Nat)
    (gemini : Except (List Char) (List Char)) (frames : List String)
    (ss lf now : Rat) (log : List Segment)
    (h : frames.filterMap (fun f => decodeFrame (stripDataUrl f)) = [] ∨
      ∃ e, gemini = Except.error e) :
    pyStartswith (("Error").data) (analyze_segment true decodeFrame gemini frames) = true ∧
    is_actionable (pyStrip (analyze_segment true decodeFrame gemini frames)) = false ∧
    (feedback_step (analyze_segment true decodeFrame gemini frames) ss lf now log).2 =
      log := by
  by_cases himg : frames.filterMap (fun f => decodeFrame (stripDataUrl f)) = []
  · have hres : analyze_segment true decodeFrame gemini frames = noValidFramesMsg := by
      simp [analyze_segment, himg]
    rw [hres]
    exact ⟨by decide,
      by decide,
      feedback_step_log_of_not_actionable _ ss lf now log (by decide)⟩
  · rcases h with h | ⟨e, he⟩
    · exact absurd h himg
    · have hne : (frames.filterMap (fun f => decodeFrame (stripDataUrl f))).isEmpty = false := by
        simp [List.isEmpty_iff, himg]
      have hres : analyze_segment true decodeFrame gemini frames =
          analyzeErrorMarker ++ e := by
        simp [analyze_segment, hne, he]
      rcases pyStrip_analyzeError e with ⟨t, ht⟩
      have hact : is_actionable (pyStrip (analyzeErrorMarker ++ e)) = false :=
        is_actionable_false_of_error _ t ht
      rw [hres]
      refine ⟨?_, hact, feedback_step_log_of_not_actionable _ ss lf now log hact⟩
      refine pyStartswith_append_right (("Error").data) analyzeErrorMarker e ?_
      decide

/-- Witness for C10: a configured agent whose frame batch contains no
decodable image returns an "Error"-marked judgment that leaves the log
unchanged. -/
theorem c10_failure_results_error_marked_witness :
    pyStartswith (("Error").data)
      (analyze_segment true (fun _ => none) (Except.ok []) [("x")]) = true ∧
    (feedback_step (analyze_segment true (fun _ => none) (Except.ok []) [("x")])
      0 0 5 ([] : List Segment)).2 = [] :=
  ⟨(c10_failure_results_error_marked (fun _ => none) (Except.ok []) [("x")]
      0 0 5 [] (Or.inl rfl)).1,
    (c10_failure_results_error_marked (fun _ => none) (Except.ok []) [("x")]
      0 0 5 [] (Or.inl rfl)).2.2⟩
